import Mathlib

/-!
# A model of rosy's protected-call boundary

This file embeds the exception-bridging core of the `rosy` Ruby bindings:
`protected` / `protected_no_panic` / `protected_no_panic_size_opt`
(`src/protected.rs`), the pending-exception accessors on `AnyException`
(`src/exception.rs`), and the protect-style entry points `vm::load`,
`vm::eval`, `vm::eval_wrapped` (`src/vm/mod.rs`).

The Ruby VM is external C code, so its primitives (`rb_protect`,
`rb_errinfo`, `rb_set_errinfo`, `rb_load_protect`, ...) are modelled by
their documented semantics: a VM state carrying the global pending-exception
slot (`errinfo`), callbacks as state transformers that either return a
value, trigger a Ruby raise (a `longjmp` caught by `rb_protect`), or panic
natively.  The Rust functions themselves are translated line by line, with
ghost fields recording the events the specification talks about: whether the
uninitialized output slot was read, how often the pending-exception slot was
read and cleared, how often the single-shot callback slot was taken, and
whether the provably-unreachable missing-callback branch ran.
-/

namespace Rosy

/-- Ruby `VALUE`: `pub type VALUE = usize` (`src/ruby_bindings/mod.rs:133`). -/
abbrev VALUE := Nat

/-- `Qnil` on 64-bit targets: `0x08` (`src/ruby_bindings/mod.rs:38`);
`util::NIL_VALUE` is `Qnil as VALUE` (`src/util.rs:13`). -/
def NIL_VALUE : VALUE := 8

/-- The nonzero jump tag `rb_protect` stores in its status out-parameter when
the protected call raised (Ruby's `TAG_RAISE`). Only `≠ 0` matters to the
Rust side, which matches the status against `0`. -/
def TAG_RAISE : Nat := 6

/-- A native panic payload (`Box<dyn Any + Send>`), kept opaque: payloads are
identified by a number, and the model only moves them around intact. -/
abbrev PanicPayload := Nat

/-- The VM state visible to this component: the global pending-exception slot
read by `rb_errinfo` and written by `rb_set_errinfo`. -/
structure VMState where
  errinfo : VALUE
  deriving Repr, DecidableEq

/-- What a callback run does at its end: return a value, trigger a Ruby raise
carrying the raised exception object, or panic natively with a payload. -/
inductive CbOutcome (O : Type) where
  | ret (v : O)
  | raise (exc : VALUE)
  | panic (payload : PanicPayload)
  deriving Repr, DecidableEq

/-- `true` exactly on the native-panic outcome. -/
def CbOutcome.isPanic {O : Type} : CbOutcome O → Bool
  | .panic _ => true
  | _ => false

/-- A zero-argument closure `F: FnOnce() -> O`, modelled as a state
transformer so that it can itself call into the VM (raise, or run a nested
protected call) before finishing. -/
def Callback (O : Type) := VMState → VMState × CbOutcome O

/-- The context handed to `rb_protect` as a `VALUE`: the single-shot
`Option<F>` holding the callback, and the output slot it writes through
(`none` models the slot still holding `mem::uninitialized` bytes).
`protected` uses `A = Except PanicPayload O` (a `thread::Result<O>` slot),
`protected_no_panic` uses `A = O`, and the size-optimized variant has no
output slot at all (`A = Empty`). -/
structure Ctx (O A : Type) where
  fslot : Option (Callback O)
  out : Option A

/-- How a trampoline invocation ends from `rb_protect`'s point of view:
a normal C return carrying a `VALUE`, a Ruby raise jumping out of it, or
undefined behavior (the model's explicit marker for executions the Rust
code declares impossible, such as unwinding through the C frame). -/
inductive WrapOut where
  | normal (v : VALUE)
  | jump (exc : VALUE)
  | ub
  deriving Repr, DecidableEq

/-- Ghost record of a trampoline invocation: how many times the callback was
taken out of the single-shot `Option<F>` slot, and whether the
missing-callback branch (`unwrap_or_else(unreachable_unchecked)`) ran. -/
structure WrapGhost where
  takes : Nat
  missing : Bool
  deriving Repr, DecidableEq

/-- The type of a trampoline as `rb_protect` sees it: it receives the context
and the VM state and produces the updated context and state plus how the
invocation ended. -/
def WrapperFn (O A : Type) :=
  Ctx O A → VMState → Ctx O A × VMState × WrapOut × WrapGhost

/-- The trampoline of `protected` (`src/protected.rs:50-62`): take the
callback out of the context's `Option<F>` (the `none` arm is
`unreachable_unchecked`, i.e. undefined behavior), run it inside
`panic::catch_unwind`, `ptr::write` the caught `thread::Result` into the
output slot, and return `nil` to the VM.  A Ruby raise is a `longjmp`, not
an unwind, so it passes `catch_unwind` untouched and jumps straight out,
leaving the output slot unwritten. -/
def protectedWrapper {O : Type} : WrapperFn O (Except PanicPayload O) :=
  fun ctx s =>
    match ctx.fslot with
    | none => (ctx, s, .ub, ⟨0, true⟩)
    | some f =>
      match f s with
      | (s₁, .ret v) =>
        ({ fslot := none, out := some (Except.ok v) }, s₁,
          .normal NIL_VALUE, ⟨1, false⟩)
      | (s₁, .panic p) =>
        ({ fslot := none, out := some (Except.error p) }, s₁,
          .normal NIL_VALUE, ⟨1, false⟩)
      | (s₁, .raise e) =>
        ({ ctx with fslot := none }, s₁, .jump e, ⟨1, false⟩)

/-- The trampoline of `protected_no_panic` (`src/protected.rs:103-115`):
same as `protectedWrapper` but without `catch_unwind`, writing the bare `O`
into the slot.  A native panic would unwind through the foreign C frame,
which is undefined behavior (the documented precondition of
`protected_no_panic` excludes it). -/
def noPanicWrapper {O : Type} : WrapperFn O O :=
  fun ctx s =>
    match ctx.fslot with
    | none => (ctx, s, .ub, ⟨0, true⟩)
    | some f =>
      match f s with
      | (s₁, .ret v) =>
        ({ fslot := none, out := some v }, s₁, .normal NIL_VALUE, ⟨1, false⟩)
      | (s₁, .panic _) =>
        ({ ctx with fslot := none }, s₁, .ub, ⟨1, false⟩)
      | (s₁, .raise e) =>
        ({ ctx with fslot := none }, s₁, .jump e, ⟨1, false⟩)

/-- Evidence that `O` has the size and alignment of `VALUE`
(`util::matches_ruby_size_align`, `src/util.rs:22-26`), together with the
bit-reinterpretations the size-optimized path performs: `enc` is the
`ptr::read` of an `O` as a `VALUE` in the trampoline, `dec` the
`ptr::read` of the returned `VALUE` back as an `O`; reading back the very
bytes that were just stored recovers the original value. -/
structure SizeAlignMatch (O : Type) where
  enc : O → VALUE
  dec : VALUE → O
  dec_enc : ∀ v : O, dec (enc v) = v

/-- The trampoline of `protected_no_panic_size_opt`
(`src/protected.rs:138-149`): the context is only the `Option<F>`; the
result is smuggled to the caller through the trampoline's `VALUE` return
value (`ptr::read` of the `ManuallyDrop`-wrapped output) instead of an
output slot. -/
def sizeOptWrapper {O : Type} (m : SizeAlignMatch O) : WrapperFn O Empty :=
  fun ctx s =>
    match ctx.fslot with
    | none => (ctx, s, .ub, ⟨0, true⟩)
    | some f =>
      match f s with
      | (s₁, .ret v) =>
        ({ ctx with fslot := none }, s₁, .normal (m.enc v), ⟨1, false⟩)
      | (s₁, .panic _) =>
        ({ ctx with fslot := none }, s₁, .ub, ⟨1, false⟩)
      | (s₁, .raise e) =>
        ({ ctx with fslot := none }, s₁, .jump e, ⟨1, false⟩)

/-- Behavior of the protect primitive: `real` is the documented semantics of
`rb_protect` (run the trampoline; on a normal return store `0` in the status
out-parameter and pass the return value through; on a raise catch the jump,
set `errinfo`, and store a nonzero tag).  `nowrite` is the counterfactual
the fail-safe initialization guards against: the primitive returns without
invoking the trampoline and without writing the status out-parameter, so
the status keeps whatever the caller initialized it to. -/
inductive PrimBehavior where
  | real
  | nowrite
  deriving Repr, DecidableEq

/-- Result of one `rb_protect` call on the model: final context, VM state,
return `VALUE`, status out-parameter, trampoline ghost data, and whether the
execution ran into undefined behavior. -/
structure PrimOut (O A : Type) where
  ctx : Ctx O A
  state : VMState
  retval : VALUE
  status : Nat
  ghost : WrapGhost
  ub : Bool

/-- Model of `rb_protect(Some(wrapper), ctx, &mut err)` where `err` was
initialized to `errInit`.  On a raise the VM's raise machinery has stored
the raised exception in the global `errinfo` slot at the moment of the
jump; `rb_protect` itself catches the jump and reports the nonzero tag. -/
def rb_protect {O A : Type} (b : PrimBehavior) (w : WrapperFn O A)
    (ctx : Ctx O A) (s : VMState) (errInit : Nat) : PrimOut O A :=
  match b with
  | .nowrite => { ctx := ctx, state := s, retval := NIL_VALUE,
                  status := errInit, ghost := ⟨0, false⟩, ub := false }
  | .real =>
    match w ctx s with
    | (ctx₁, s₁, .normal v, g) =>
      { ctx := ctx₁, state := s₁, retval := v, status := 0,
        ghost := g, ub := false }
    | (ctx₁, s₁, .jump e, g) =>
      { ctx := ctx₁, state := { s₁ with errinfo := e }, retval := NIL_VALUE,
        status := TAG_RAISE, ghost := g, ub := false }
    | (ctx₁, s₁, .ub, g) =>
      { ctx := ctx₁, state := s₁, retval := NIL_VALUE, status := 0,
        ghost := g, ub := true }

/-- An exception handle is the raw `VALUE` wrapped by
`AnyException(AnyObject)`. -/
abbrev AnyException := VALUE

namespace AnyException

/-- `AnyException::_take_current` (`src/exception.rs:155-159`): read
`rb_errinfo()` unconditionally, clear the slot with
`rb_set_errinfo(NIL_VALUE)`, and wrap the raw value. -/
def take_current_unchecked (s : VMState) : AnyException × VMState :=
  (s.errinfo, { s with errinfo := NIL_VALUE })

/-- `AnyException::current` (`src/exception.rs:178-185`): match
`rb_errinfo()` against `NIL_VALUE`; the state comes back untouched because
the function only reads the slot. -/
def current (s : VMState) : Option AnyException × VMState :=
  (if s.errinfo = NIL_VALUE then none else some s.errinfo, s)

/-- `AnyException::take_current` (`src/exception.rs:189-193`): early-return
`none` when `current()` is `None` (leaving the slot untouched); otherwise
clear the slot with `rb_set_errinfo(NIL_VALUE)` and return the exception. -/
def take_current (s : VMState) : Option AnyException × VMState :=
  match current s with
  | (none, s₁) => (none, s₁)
  | (some e, s₁) => (some e, { s₁ with errinfo := NIL_VALUE })

end AnyException

/-- How a `protected`-style call ends for its native caller: `Ok(v)`,
`Err(exception)`, a resumed native panic (`panic::resume_unwind` with the
original payload), or undefined behavior. -/
inductive ProtResult (O : Type) where
  | ok (v : O)
  | err (exc : AnyException)
  | panicked (payload : PanicPayload)
  | ub
  deriving Repr, DecidableEq

/-- Observable record of one `protected`-style call, with ghost fields:
`status` is the final value of the `err` out-parameter; `slotRead` says
whether the output slot was read (`ManuallyDrop::into_inner`);
`slotReadUninit` whether such a read hit a slot never written;
`errinfoReads` / `errinfoClears` count the boundary's own reads and clears
of the global pending-exception slot (`_take_current`); `cbTakes` and
`missingHit` replay the trampoline ghost data. -/
structure ProtRun (O : Type) where
  result : ProtResult O
  state : VMState
  status : Nat
  slotRead : Bool
  slotReadUninit : Bool
  errinfoReads : Nat
  errinfoClears : Nat
  cbTakes : Nat
  missingHit : Bool

/-- `protected` (`src/protected.rs:47-81`): build the context `(Some(f),
&mut out)` over an uninitialized `thread::Result<O>` slot, initialize the
status to `1`, call `rb_protect`, and match the status: on `0` read the
slot (`Ok` → return the value, `Err` → `resume_unwind` the payload), on
anything else return `Err(AnyException::_take_current())` without touching
the slot. -/
def protectedRun {O : Type} (b : PrimBehavior) (f : Callback O)
    (s : VMState) : ProtRun O :=
  let p := rb_protect b protectedWrapper { fslot := some f, out := none } s 1
  if p.ub then
    { result := .ub, state := p.state, status := p.status,
      slotRead := false, slotReadUninit := false,
      errinfoReads := 0, errinfoClears := 0,
      cbTakes := p.ghost.takes, missingHit := p.ghost.missing }
  else
    match p.status with
    | 0 =>
      match p.ctx.out with
      | some (Except.ok v) =>
        { result := .ok v, state := p.state, status := 0,
          slotRead := true, slotReadUninit := false,
          errinfoReads := 0, errinfoClears := 0,
          cbTakes := p.ghost.takes, missingHit := p.ghost.missing }
      | some (Except.error pl) =>
        { result := .panicked pl, state := p.state, status := 0,
          slotRead := true, slotReadUninit := false,
          errinfoReads := 0, errinfoClears := 0,
          cbTakes := p.ghost.takes, missingHit := p.ghost.missing }
      | none =>
        { result := .ub, state := p.state, status := 0,
          slotRead := true, slotReadUninit := true,
          errinfoReads := 0, errinfoClears := 0,
          cbTakes := p.ghost.takes, missingHit := p.ghost.missing }
    | st =>
      let ts := AnyException.take_current_unchecked p.state
      { result := .err ts.1, state := ts.2, status := st,
        slotRead := false, slotReadUninit := false,
        errinfoReads := 1, errinfoClears := 1,
        cbTakes := p.ghost.takes, missingHit := p.ghost.missing }

/-- The general (not size-optimized) path of `protected_no_panic`
(`src/protected.rs:103-127`): like `protectedRun` but over a bare `O` slot,
with no `catch_unwind`, and with the status initialized to `0`. -/
def protectedNoPanicGeneralRun {O : Type} (b : PrimBehavior) (f : Callback O)
    (s : VMState) : ProtRun O :=
  let p := rb_protect b noPanicWrapper { fslot := some f, out := none } s 0
  if p.ub then
    { result := .ub, state := p.state, status := p.status,
      slotRead := false, slotReadUninit := false,
      errinfoReads := 0, errinfoClears := 0,
      cbTakes := p.ghost.takes, missingHit := p.ghost.missing }
  else
    match p.status with
    | 0 =>
      match p.ctx.out with
      | some v =>
        { result := .ok v, state := p.state, status := 0,
          slotRead := true, slotReadUninit := false,
          errinfoReads := 0, errinfoClears := 0,
          cbTakes := p.ghost.takes, missingHit := p.ghost.missing }
      | none =>
        { result := .ub, state := p.state, status := 0,
          slotRead := true, slotReadUninit := true,
          errinfoReads := 0, errinfoClears := 0,
          cbTakes := p.ghost.takes, missingHit := p.ghost.missing }
    | st =>
      let ts := AnyException.take_current_unchecked p.state
      { result := .err ts.1, state := ts.2, status := st,
        slotRead := false, slotReadUninit := false,
        errinfoReads := 1, errinfoClears := 1,
        cbTakes := p.ghost.takes, missingHit := p.ghost.missing }

/-- `protected_no_panic_size_opt` (`src/protected.rs:133-160`): the context
is only `Some(f)`, the status is initialized to `0`, and on status `0` the
result is `ptr::read` of `rb_protect`'s return value as an `O` (there is no
output slot, so the slot ghost fields stay `false`). -/
def protectedNoPanicSizeOptRun {O : Type} (b : PrimBehavior)
    (m : SizeAlignMatch O) (f : Callback O) (s : VMState) : ProtRun O :=
  let p := rb_protect b (sizeOptWrapper m) { fslot := some f, out := none } s 0
  if p.ub then
    { result := .ub, state := p.state, status := p.status,
      slotRead := false, slotReadUninit := false,
      errinfoReads := 0, errinfoClears := 0,
      cbTakes := p.ghost.takes, missingHit := p.ghost.missing }
  else
    match p.status with
    | 0 =>
      { result := .ok (m.dec p.retval), state := p.state, status := 0,
        slotRead := false, slotReadUninit := false,
        errinfoReads := 0, errinfoClears := 0,
        cbTakes := p.ghost.takes, missingHit := p.ghost.missing }
    | st =>
      let ts := AnyException.take_current_unchecked p.state
      { result := .err ts.1, state := ts.2, status := st,
        slotRead := false, slotReadUninit := false,
        errinfoReads := 1, errinfoClears := 1,
        cbTakes := p.ghost.takes, missingHit := p.ghost.missing }

/-- `protected_no_panic` (`src/protected.rs:96-101`): dispatch on
`util::matches_ruby_size_align::<O>()` — when `O` matches `VALUE`'s size
and alignment (witnessed by `some m`) take the size-optimized path,
otherwise the general output-slot path. -/
def protectedNoPanicRun {O : Type} (b : PrimBehavior)
    (m : Option (SizeAlignMatch O)) (f : Callback O) (s : VMState) :
    ProtRun O :=
  match m with
  | some ma => protectedNoPanicSizeOptRun b ma f s
  | none => protectedNoPanicGeneralRun b f s

/-- What a script-running VM primitive does: evaluate to an object, or
raise. -/
inductive ScriptOutcome where
  | ret (v : VALUE)
  | raise (exc : VALUE)
  deriving Repr, DecidableEq

/-- Model of the external protect-style primitives `rb_load_protect`,
`rb_eval_string_protect` and `rb_eval_string_wrap`: they run the script and
write `0` to the status out-parameter on normal completion, or store the
raised exception in the global `errinfo` slot and write a nonzero tag.
Returns `(return value, status, state)`. -/
def scriptPrim (oc : ScriptOutcome) (s : VMState) : VALUE × Nat × VMState :=
  match oc with
  | .ret v => (v, 0, s)
  | .raise e => (NIL_VALUE, TAG_RAISE, { s with errinfo := e })

/-- Observable record of one `vm::load` / `vm::eval` / `vm::eval_wrapped`
call: the `Result`, the final VM state, the final status out-parameter, and
how often the boundary cleared the pending-exception slot. -/
structure EvalRun (O : Type) where
  result : Except AnyException O
  state : VMState
  status : Nat
  errinfoClears : Nat

/-- `vm::load` (`src/vm/mod.rs:166-175`): `err = 0`;
`rb_load_protect(...)`; on `0` return `Ok(())`, otherwise
`Err(AnyException::_take_current())`. -/
def vm_load (oc : ScriptOutcome) (s : VMState) : EvalRun Unit :=
  let r := scriptPrim oc s
  match r.2.1 with
  | 0 => { result := .ok (), state := r.2.2, status := 0, errinfoClears := 0 }
  | st =>
    let ts := AnyException.take_current_unchecked r.2.2
    { result := .error ts.1, state := ts.2, status := st, errinfoClears := 1 }

/-- `vm::eval` (`src/vm/mod.rs:192-201`): `err = 0`;
`raw = rb_eval_string_protect(...)`; on `0` return
`Ok(AnyObject::from_raw(raw))`, otherwise
`Err(AnyException::_take_current())`. -/
def vm_eval (oc : ScriptOutcome) (s : VMState) : EvalRun VALUE :=
  let r := scriptPrim oc s
  match r.2.1 with
  | 0 => { result := .ok r.1, state := r.2.2, status := 0, errinfoClears := 0 }
  | st =>
    let ts := AnyException.take_current_unchecked r.2.2
    { result := .error ts.1, state := ts.2, status := st, errinfoClears := 1 }

/-- `vm::eval_wrapped` (`src/vm/mod.rs:210-219`): `err = 0`;
`raw = rb_eval_string_wrap(...)`; on `0` return
`Ok(AnyObject::from_raw(raw))`, otherwise
`Err(AnyException::_take_current())`. -/
def vm_eval_wrapped (oc : ScriptOutcome) (s : VMState) : EvalRun VALUE :=
  let r := scriptPrim oc s
  match r.2.1 with
  | 0 => { result := .ok r.1, state := r.2.2, status := 0, errinfoClears := 0 }
  | st =>
    let ts := AnyException.take_current_unchecked r.2.2
    { result := .error ts.1, state := ts.2, status := st, errinfoClears := 1 }

/-- The outer callback of the spec's nesting scenario: run an inner
`protected` call on `g`; when it came back `Err` (the `assert!` passes),
produce `v`; any other inner result fails the `assert!`, i.e. panics. -/
def nestedCallback {I O : Type} (g : Callback I) (v : O) : Callback O :=
  fun s =>
    let r := protectedRun .real g s
    match r.result with
    | .err _ => (r.state, .ret v)
    | _ => (r.state, .panic 0)

/-! ## Evaluation lemmas: one per callback outcome and per variant -/

/-- `protected` on a callback that returns normally. -/
theorem protectedRun_ret_eq {O : Type} (f : Callback O) (s s₁ : VMState)
    (v : O) (hf : f s = (s₁, .ret v)) :
    protectedRun .real f s =
      { result := .ok v, state := s₁, status := 0,
        slotRead := true, slotReadUninit := false,
        errinfoReads := 0, errinfoClears := 0,
        cbTakes := 1, missingHit := false } := by
  unfold protectedRun rb_protect protectedWrapper
  simp [hf]

/-- `protected` on a callback that raises. -/
theorem protectedRun_raise_eq {O : Type} (f : Callback O) (s s₁ : VMState)
    (e : VALUE) (hf : f s = (s₁, .raise e)) :
    protectedRun .real f s =
      { result := .err e, state := { errinfo := NIL_VALUE }, status := TAG_RAISE,
        slotRead := false, slotReadUninit := false,
        errinfoReads := 1, errinfoClears := 1,
        cbTakes := 1, missingHit := false } := by
  unfold protectedRun rb_protect protectedWrapper
  simp [hf, TAG_RAISE, AnyException.take_current_unchecked]

/-- `protected` on a callback that panics natively. -/
theorem protectedRun_panic_eq {O : Type} (f : Callback O) (s s₁ : VMState)
    (p : PanicPayload) (hf : f s = (s₁, .panic p)) :
    protectedRun .real f s =
      { result := .panicked p, state := s₁, status := 0,
        slotRead := true, slotReadUninit := false,
        errinfoReads := 0, errinfoClears := 0,
        cbTakes := 1, missingHit := false } := by
  unfold protectedRun rb_protect protectedWrapper
  simp [hf]

/-- The general `protected_no_panic` path on a normal return. -/
theorem noPanicGeneralRun_ret_eq {O : Type} (f : Callback O) (s s₁ : VMState)
    (v : O) (hf : f s = (s₁, .ret v)) :
    protectedNoPanicGeneralRun .real f s =
      { result := .ok v, state := s₁, status := 0,
        slotRead := true, slotReadUninit := false,
        errinfoReads := 0, errinfoClears := 0,
        cbTakes := 1, missingHit := false } := by
  unfold protectedNoPanicGeneralRun rb_protect noPanicWrapper
  simp [hf]

/-- The general `protected_no_panic` path on a raise. -/
theorem noPanicGeneralRun_raise_eq {O : Type} (f : Callback O) (s s₁ : VMState)
    (e : VALUE) (hf : f s = (s₁, .raise e)) :
    protectedNoPanicGeneralRun .real f s =
      { result := .err e, state := { errinfo := NIL_VALUE }, status := TAG_RAISE,
        slotRead := false, slotReadUninit := false,
        errinfoReads := 1, errinfoClears := 1,
        cbTakes := 1, missingHit := false } := by
  unfold protectedNoPanicGeneralRun rb_protect noPanicWrapper
  simp [hf, TAG_RAISE, AnyException.take_current_unchecked]

/-- The size-optimized `protected_no_panic` path on a normal return: the
value is carried through `rb_protect`'s return value and read back intact. -/
theorem sizeOptRun_ret_eq {O : Type} (m : SizeAlignMatch O) (f : Callback O)
    (s s₁ : VMState) (v : O) (hf : f s = (s₁, .ret v)) :
    protectedNoPanicSizeOptRun .real m f s =
      { result := .ok v, state := s₁, status := 0,
        slotRead := false, slotReadUninit := false,
        errinfoReads := 0, errinfoClears := 0,
        cbTakes := 1, missingHit := false } := by
  unfold protectedNoPanicSizeOptRun rb_protect sizeOptWrapper
  simp [hf, m.dec_enc]

/-- The size-optimized `protected_no_panic` path on a raise. -/
theorem sizeOptRun_raise_eq {O : Type} (m : SizeAlignMatch O) (f : Callback O)
    (s s₁ : VMState) (e : VALUE) (hf : f s = (s₁, .raise e)) :
    protectedNoPanicSizeOptRun .real m f s =
      { result := .err e, state := { errinfo := NIL_VALUE }, status := TAG_RAISE,
        slotRead := false, slotReadUninit := false,
        errinfoReads := 1, errinfoClears := 1,
        cbTakes := 1, missingHit := false } := by
  unfold protectedNoPanicSizeOptRun rb_protect sizeOptWrapper
  simp [hf, TAG_RAISE, AnyException.take_current_unchecked]

/-! ## The claims -/

/-- C1: for every callback that returns normally without triggering a VM
raise, `protected` returns `Ok` of exactly the callback's value; the
success path neither reads nor writes the pending-exception slot (the final
state is exactly the callback's final state), so the slot is empty
afterward whenever the callback left it empty. -/
theorem C1_protected_normal_return {O : Type} (f : Callback O)
    (s s₁ : VMState) (v : O) (hf : f s = (s₁, .ret v)) :
    (protectedRun .real f s).result = .ok v ∧
    (protectedRun .real f s).status = 0 ∧
    (protectedRun .real f s).state = s₁ ∧
    (protectedRun .real f s).errinfoReads = 0 ∧
    (protectedRun .real f s).errinfoClears = 0 ∧
    (s₁.errinfo = NIL_VALUE →
      (protectedRun .real f s).state.errinfo = NIL_VALUE) := by
  rw [protectedRun_ret_eq f s s₁ v hf]
  exact ⟨rfl, rfl, rfl, rfl, rfl, fun h => h⟩

/-- Witness for C1: a callback returning `42` on an empty-slot state. -/
theorem C1_witness :
    (protectedRun .real (fun s => (s, .ret (42 : Nat)))
      { errinfo := NIL_VALUE }).result = .ok 42 ∧
    (protectedRun .real (fun s => (s, .ret (42 : Nat)))
      { errinfo := NIL_VALUE }).status = 0 ∧
    (protectedRun .real (fun s => (s, .ret (42 : Nat)))
      { errinfo := NIL_VALUE }).state = { errinfo := NIL_VALUE } ∧
    (protectedRun .real (fun s => (s, .ret (42 : Nat)))
      { errinfo := NIL_VALUE }).errinfoReads = 0 ∧
    (protectedRun .real (fun s => (s, .ret (42 : Nat)))
      { errinfo := NIL_VALUE }).errinfoClears = 0 ∧
    ((VMState.mk NIL_VALUE).errinfo = NIL_VALUE →
      (protectedRun .real (fun s => (s, .ret (42 : Nat)))
        { errinfo := NIL_VALUE }).state.errinfo = NIL_VALUE) :=
  C1_protected_normal_return (fun s => (s, .ret 42))
    { errinfo := NIL_VALUE } { errinfo := NIL_VALUE } 42 rfl

/-- C2: in every execution of `protected` the output slot is read if and
only if the status is zero, and never while uninitialized; the same holds
for `protected_no_panic` (general path) under its documented precondition
that the callback cannot panic. -/
theorem C2_slot_read_iff_status_zero {O : Type} (s : VMState) :
    (∀ f : Callback O,
      ((protectedRun .real f s).slotRead = true ↔
        (protectedRun .real f s).status = 0) ∧
      (protectedRun .real f s).slotReadUninit = false) ∧
    (∀ f : Callback O, (f s).2.isPanic = false →
      ((protectedNoPanicGeneralRun .real f s).slotRead = true ↔
        (protectedNoPanicGeneralRun .real f s).status = 0) ∧
      (protectedNoPanicGeneralRun .real f s).slotReadUninit = false) := by
  constructor
  · intro f
    rcases hfs : f s with ⟨s₁, o⟩
    cases o with
    | ret v => rw [protectedRun_ret_eq f s s₁ v hfs]; exact ⟨by simp, rfl⟩
    | raise e =>
      rw [protectedRun_raise_eq f s s₁ e hfs]
      exact ⟨by simp [TAG_RAISE], rfl⟩
    | panic p => rw [protectedRun_panic_eq f s s₁ p hfs]; exact ⟨by simp, rfl⟩
  · intro f hnp
    rcases hfs : f s with ⟨s₁, o⟩
    cases o with
    | ret v => rw [noPanicGeneralRun_ret_eq f s s₁ v hfs]; exact ⟨by simp, rfl⟩
    | raise e =>
      rw [noPanicGeneralRun_raise_eq f s s₁ e hfs]
      exact ⟨by simp [TAG_RAISE], rfl⟩
    | panic p => rw [hfs] at hnp; cases hnp

/-- Witness for C2: the no-panic half at a concrete non-panicking
callback. -/
theorem C2_witness :
    ((protectedNoPanicGeneralRun .real (fun s => (s, .ret (7 : Nat)))
        { errinfo := NIL_VALUE }).slotRead = true ↔
      (protectedNoPanicGeneralRun .real (fun s => (s, .ret (7 : Nat)))
        { errinfo := NIL_VALUE }).status = 0) ∧
    (protectedNoPanicGeneralRun .real (fun s => (s, .ret (7 : Nat)))
      { errinfo := NIL_VALUE }).slotReadUninit = false :=
  (C2_slot_read_iff_status_zero { errinfo := NIL_VALUE }).2
    (fun s => (s, .ret 7)) rfl

/-- C3: on a raise, `protected` returns `Err` of exactly the exception that
was pending at the moment of the jump, reading and clearing the global slot
exactly once, so the final state has no pending exception (`current` sees
none and a following independent call finds a clear slot); on a successful
call the slot is never cleared. -/
theorem C3_protected_raise {O : Type} (f : Callback O) (s s₁ : VMState)
    (e : VALUE) (hf : f s = (s₁, .raise e)) :
    (protectedRun .real f s).result = .err e ∧
    (protectedRun .real f s).state.errinfo = NIL_VALUE ∧
    (protectedRun .real f s).errinfoReads = 1 ∧
    (protectedRun .real f s).errinfoClears = 1 ∧
    (AnyException.current (protectedRun .real f s).state).1 = none ∧
    (∀ (g : Callback O) (t t₁ : VMState) (w : O), g t = (t₁, .ret w) →
      (protectedRun .real g t).errinfoClears = 0) := by
  rw [protectedRun_raise_eq f s s₁ e hf]
  refine ⟨rfl, rfl, rfl, rfl, by simp [AnyException.current], ?_⟩
  intro g t t₁ w hg
  rw [protectedRun_ret_eq g t t₁ w hg]

/-- Witness for C3: a callback raising exception `100`. -/
theorem C3_witness :
    (protectedRun .real (fun s => (s, .raise 100))
      { errinfo := NIL_VALUE }).result = ProtResult.err (O := Nat) 100 ∧
    (protectedRun .real (fun s => (s, CbOutcome.raise (O := Nat) 100))
      { errinfo := NIL_VALUE }).state.errinfo = NIL_VALUE ∧
    (protectedRun .real (fun s => (s, CbOutcome.raise (O := Nat) 100))
      { errinfo := NIL_VALUE }).errinfoReads = 1 ∧
    (protectedRun .real (fun s => (s, CbOutcome.raise (O := Nat) 100))
      { errinfo := NIL_VALUE }).errinfoClears = 1 ∧
    (AnyException.current (protectedRun .real
      (fun s => (s, CbOutcome.raise (O := Nat) 100))
      { errinfo := NIL_VALUE }).state).1 = none ∧
    (∀ (g : Callback Nat) (t t₁ : VMState) (w : Nat), g t = (t₁, .ret w) →
      (protectedRun .real g t).errinfoClears = 0) :=
  C3_protected_raise (fun s => (s, .raise 100))
    { errinfo := NIL_VALUE } { errinfo := NIL_VALUE } 100 rfl

/-- C4: on a native panic inside the callback, the trampoline catches the
unwind, `rb_protect` returns with success status `0`, the result is the
resumed panic with its original payload (never `Err`), and the boundary
neither reads nor writes the pending-exception slot, so it stays empty
whenever the callback left it empty. -/
theorem C4_protected_panic {O : Type} (f : Callback O) (s s₁ : VMState)
    (p : PanicPayload) (hf : f s = (s₁, .panic p)) :
    (protectedRun .real f s).result = .panicked p ∧
    (protectedRun .real f s).status = 0 ∧
    (protectedRun .real f s).state = s₁ ∧
    (protectedRun .real f s).errinfoReads = 0 ∧
    (protectedRun .real f s).errinfoClears = 0 ∧
    (∀ x : AnyException, (protectedRun .real f s).result ≠ .err x) ∧
    (s₁.errinfo = NIL_VALUE →
      (protectedRun .real f s).state.errinfo = NIL_VALUE) := by
  rw [protectedRun_panic_eq f s s₁ p hf]
  exact ⟨rfl, rfl, rfl, rfl, rfl, by simp, fun h => h⟩

/-- Witness for C4: a callback panicking with payload `3`. -/
theorem C4_witness :
    (protectedRun .real (fun s => (s, CbOutcome.panic (O := Nat) 3))
      { errinfo := NIL_VALUE }).result = .panicked 3 ∧
    (protectedRun .real (fun s => (s, CbOutcome.panic (O := Nat) 3))
      { errinfo := NIL_VALUE }).status = 0 ∧
    (protectedRun .real (fun s => (s, CbOutcome.panic (O := Nat) 3))
      { errinfo := NIL_VALUE }).state = { errinfo := NIL_VALUE } ∧
    (protectedRun .real (fun s => (s, CbOutcome.panic (O := Nat) 3))
      { errinfo := NIL_VALUE }).errinfoReads = 0 ∧
    (protectedRun .real (fun s => (s, CbOutcome.panic (O := Nat) 3))
      { errinfo := NIL_VALUE }).errinfoClears = 0 ∧
    (∀ x : AnyException,
      (protectedRun .real (fun s => (s, CbOutcome.panic (O := Nat) 3))
        { errinfo := NIL_VALUE }).result ≠ .err x) ∧
    ((VMState.mk NIL_VALUE).errinfo = NIL_VALUE →
      (protectedRun .real (fun s => (s, CbOutcome.panic (O := Nat) 3))
        { errinfo := NIL_VALUE }).state.errinfo = NIL_VALUE) :=
  C4_protected_panic (fun s => (s, .panic 3))
    { errinfo := NIL_VALUE } { errinfo := NIL_VALUE } 3 rfl

/-- C5: when the inner callback of a nested `protected` call raises, the
outer callback observes the inner `Err`, produces `v`, and the outer call
returns `Ok v` with a clear pending-exception slot: the inner raise neither
leaks into nor aborts the outer call. -/
theorem C5_nested_inner_raise {I O : Type} (g : Callback I) (v : O)
    (s s₁ : VMState) (e : VALUE) (hg : g s = (s₁, .raise e)) :
    (protectedRun .real (nestedCallback g v) s).result = .ok v ∧
    (protectedRun .real (nestedCallback g v) s).state.errinfo = NIL_VALUE := by
  have hn : nestedCallback g v s = ({ errinfo := NIL_VALUE }, .ret v) := by
    unfold nestedCallback
    rw [protectedRun_raise_eq g s s₁ e hg]
  rw [protectedRun_ret_eq (nestedCallback g v) s { errinfo := NIL_VALUE } v hn]
  exact ⟨rfl, rfl⟩

/-- Witness for C5: inner raise of `55`, outer value `9`. -/
theorem C5_witness :
    (protectedRun .real
      (nestedCallback (fun s => (s, CbOutcome.raise (O := Nat) 55)) (9 : Nat))
      { errinfo := NIL_VALUE }).result = .ok 9 ∧
    (protectedRun .real
      (nestedCallback (fun s => (s, CbOutcome.raise (O := Nat) 55)) (9 : Nat))
      { errinfo := NIL_VALUE }).state.errinfo = NIL_VALUE :=
  C5_nested_inner_raise (fun s => (s, .raise 55)) 9
    { errinfo := NIL_VALUE } { errinfo := NIL_VALUE } 55 rfl

/-- C6: under the precondition that the callback cannot panic,
`protected_no_panic` — through either its general output-slot path or its
size-optimized path, which smuggles the output through `rb_protect`'s
return value — produces the same result, final state and status as
`protected`. -/
theorem C6_no_panic_refines_protected {O : Type}
    (m : Option (SizeAlignMatch O)) (f : Callback O) (s : VMState)
    (hnp : (f s).2.isPanic = false) :
    (protectedNoPanicRun .real m f s).result =
      (protectedRun .real f s).result ∧
    (protectedNoPanicRun .real m f s).state =
      (protectedRun .real f s).state ∧
    (protectedNoPanicRun .real m f s).status =
      (protectedRun .real f s).status := by
  rcases hfs : f s with ⟨s₁, o⟩
  cases o with
  | ret v =>
    cases m with
    | none =>
      rw [protectedNoPanicRun, noPanicGeneralRun_ret_eq f s s₁ v hfs,
        protectedRun_ret_eq f s s₁ v hfs]
      exact ⟨rfl, rfl, rfl⟩
    | some ma =>
      rw [protectedNoPanicRun, sizeOptRun_ret_eq ma f s s₁ v hfs,
        protectedRun_ret_eq f s s₁ v hfs]
      exact ⟨rfl, rfl, rfl⟩
  | raise e =>
    cases m with
    | none =>
      rw [protectedNoPanicRun, noPanicGeneralRun_raise_eq f s s₁ e hfs,
        protectedRun_raise_eq f s s₁ e hfs]
      exact ⟨rfl, rfl, rfl⟩
    | some ma =>
      rw [protectedNoPanicRun, sizeOptRun_raise_eq ma f s s₁ e hfs,
        protectedRun_raise_eq f s s₁ e hfs]
      exact ⟨rfl, rfl, rfl⟩
  | panic p => rw [hfs] at hnp; cases hnp

/-- Witness for C6: the size-optimized path (identity reinterpretation on
`Nat`-sized output) against `protected` on a returning callback. -/
theorem C6_witness :
    (protectedNoPanicRun .real (some ⟨id, id, fun _ => rfl⟩)
      (fun s => (s, .ret (11 : Nat))) { errinfo := NIL_VALUE }).result =
      (protectedRun .real (fun s => (s, .ret (11 : Nat)))
        { errinfo := NIL_VALUE }).result ∧
    (protectedNoPanicRun .real (some ⟨id, id, fun _ => rfl⟩)
      (fun s => (s, .ret (11 : Nat))) { errinfo := NIL_VALUE }).state =
      (protectedRun .real (fun s => (s, .ret (11 : Nat)))
        { errinfo := NIL_VALUE }).state ∧
    (protectedNoPanicRun .real (some ⟨id, id, fun _ => rfl⟩)
      (fun s => (s, .ret (11 : Nat))) { errinfo := NIL_VALUE }).status =
      (protectedRun .real (fun s => (s, .ret (11 : Nat)))
        { errinfo := NIL_VALUE }).status :=
  C6_no_panic_refines_protected (some ⟨id, id, fun _ => rfl⟩)
    (fun s => (s, .ret 11)) { errinfo := NIL_VALUE } rfl

/-- C7: with the single-shot context slot populated (as `protected` and
`protected_no_panic` always arrange before calling the primitive), the
trampolines take the callback exactly once (the missing-callback branch
does not run, the slot is `None` afterwards), invoke it, write its result
into the output slot, and return the placeholder `nil` to the VM. -/
theorem C7_trampoline_single_shot {O : Type} (f : Callback O)
    (ctx : Ctx O (Except PanicPayload O)) (ctxNP : Ctx O O)
    (s s₁ : VMState) (v : O)
    (hc : ctx.fslot = some f) (hcNP : ctxNP.fslot = some f)
    (hf : f s = (s₁, .ret v)) :
    protectedWrapper ctx s =
      ({ fslot := none, out := some (Except.ok v) }, s₁,
        .normal NIL_VALUE, ⟨1, false⟩) ∧
    noPanicWrapper ctxNP s =
      ({ fslot := none, out := some v }, s₁, .normal NIL_VALUE, ⟨1, false⟩) := by
  obtain ⟨fs, o⟩ := ctx
  obtain ⟨fsNP, oNP⟩ := ctxNP
  cases hc
  cases hcNP
  constructor
  · unfold protectedWrapper
    simp [hf]
  · unfold noPanicWrapper
    simp [hf]

/-- A concrete callback returning `5`, instantiating the trampoline
theorem. -/
def retFive : Callback Nat := fun s => (s, .ret 5)

/-- Witness for C7: concrete contexts holding a callback returning `5`. -/
theorem C7_witness :
    protectedWrapper ⟨some retFive, none⟩ ⟨NIL_VALUE⟩ =
      (⟨none, some (Except.ok 5)⟩, ⟨NIL_VALUE⟩, .normal NIL_VALUE, ⟨1, false⟩) ∧
    noPanicWrapper ⟨some retFive, none⟩ ⟨NIL_VALUE⟩ =
      (⟨none, some 5⟩, ⟨NIL_VALUE⟩, .normal NIL_VALUE, ⟨1, false⟩) :=
  C7_trampoline_single_shot retFive ⟨some retFive, none⟩ ⟨some retFive, none⟩
    ⟨NIL_VALUE⟩ ⟨NIL_VALUE⟩ 5 rfl rfl rfl

/-- C8: `AnyException::current` returns `None` exactly when the pending
slot holds nil, otherwise `Some` of the pending exception, and never
modifies the slot; `take_current` returns exactly what `current` would,
clears the slot when an exception was pending, and leaves the state
untouched (returning `None`) when none was. -/
theorem C8_current_and_take_current (s : VMState) :
    ((AnyException.current s).1 = none ↔ s.errinfo = NIL_VALUE) ∧
    (s.errinfo ≠ NIL_VALUE →
      (AnyException.current s).1 = some s.errinfo) ∧
    (AnyException.current s).2 = s ∧
    (AnyException.take_current s).1 = (AnyException.current s).1 ∧
    (s.errinfo ≠ NIL_VALUE →
      (AnyException.take_current s).2 = { errinfo := NIL_VALUE }) ∧
    (s.errinfo = NIL_VALUE → AnyException.take_current s = (none, s)) := by
  unfold AnyException.take_current AnyException.current
  by_cases h : s.errinfo = NIL_VALUE <;> simp [h]

/-- Witness for C8: a state with pending exception `42`. -/
theorem C8_witness :
    (AnyException.current { errinfo := 42 }).1 = some 42 ∧
    (AnyException.take_current { errinfo := 42 }).2 =
      ({ errinfo := NIL_VALUE } : VMState) :=
  ⟨(C8_current_and_take_current { errinfo := 42 }).2.1 (by decide),
   (C8_current_and_take_current { errinfo := 42 }).2.2.2.2.1 (by decide)⟩

/-- C9: `vm::load`, `vm::eval` and `vm::eval_wrapped` follow the same
take-and-clear discipline as `protected`: `Ok` of the evaluated object
(unit for `load`) exactly when the primitive reports status zero, and
otherwise `Err` of the pending exception removed from the global slot by a
single take-and-clear. -/
theorem C9_vm_boundaries (s : VMState) (v e : VALUE) :
    vm_load (.ret v) s =
      { result := .ok (), state := s, status := 0, errinfoClears := 0 } ∧
    vm_eval (.ret v) s =
      { result := .ok v, state := s, status := 0, errinfoClears := 0 } ∧
    vm_eval_wrapped (.ret v) s =
      { result := .ok v, state := s, status := 0, errinfoClears := 0 } ∧
    vm_load (.raise e) s =
      { result := .error e, state := { errinfo := NIL_VALUE },
        status := TAG_RAISE, errinfoClears := 1 } ∧
    vm_eval (.raise e) s =
      { result := .error e, state := { errinfo := NIL_VALUE },
        status := TAG_RAISE, errinfoClears := 1 } ∧
    vm_eval_wrapped (.raise e) s =
      { result := .error e, state := { errinfo := NIL_VALUE },
        status := TAG_RAISE, errinfoClears := 1 } :=
  ⟨rfl, rfl, rfl, rfl, rfl, rfl⟩

/-- C10: `protected` initializes the status out-parameter to `1`, so a
protect primitive that returned without writing a status would send it down
the error branch, never reading the output slot; the no-panic variants
initialize it to `0`, so the same pathological primitive would send them
down the success branch — the general path reading the never-written slot,
the size-optimized path reinterpreting the meaningless return value. -/
theorem C10_failsafe_status_init {O : Type} (m : SizeAlignMatch O)
    (f : Callback O) (s : VMState) :
    (protectedRun .nowrite f s).status = 1 ∧
    (protectedRun .nowrite f s).slotRead = false ∧
    (protectedRun .nowrite f s).slotReadUninit = false ∧
    (protectedRun .nowrite f s).result = .err s.errinfo ∧
    (protectedNoPanicGeneralRun .nowrite f s).status = 0 ∧
    (protectedNoPanicGeneralRun .nowrite f s).slotRead = true ∧
    (protectedNoPanicGeneralRun .nowrite f s).slotReadUninit = true ∧
    (protectedNoPanicGeneralRun .nowrite f s).result = .ub ∧
    (protectedNoPanicSizeOptRun .nowrite m f s).status = 0 ∧
    (protectedNoPanicSizeOptRun .nowrite m f s).result =
      .ok (m.dec NIL_VALUE) := by
  unfold protectedRun protectedNoPanicGeneralRun protectedNoPanicSizeOptRun
    rb_protect
  exact ⟨rfl, rfl, rfl, rfl, rfl, rfl, rfl, rfl, rfl, rfl⟩

end Rosy
